import Mathlib

/-! Verification of `readlmu` (2014/Gadfly/lmu.c)

`readlmu` reads the ambient light sensor of a laptop through IOKit.  It calls
into the operating system three times (service lookup, open, synchronous
call), releases the service reference, and on any failure writes a diagnostic
on standard error and calls `abort`.

The embedding is explicit state passing.  The operating system is a record of
stubs (`Platform`) acting on a world state of arbitrary type; every external
call made by the function is appended to a trace, in program order, so that
the order of effects can be stated.  The constants that come from system
headers (`KERN_SUCCESS`, `kIOMasterPortDefault`, `mach_task_self()`) are
fields of the platform, so every theorem holds whatever their values are.
-/

namespace Lmu

/-! ## Data model -/

/-- Matching dictionary built by `IOServiceMatching(name)`: it selects the
services whose provider class is `name`. -/
structure MatchingDict where
  IOProviderClass : String
  deriving DecidableEq, Repr

/-- Library call `IOServiceMatching`, a constructor of matching dictionaries. -/
def IOServiceMatching (name : String) : MatchingDict := ⟨name⟩

/-- Arguments of one `IOConnectCallMethod` call, in the order of the C
parameter list.  Pointer arguments are options (`nil` is `none`); `outputCnt`
is the value stored in `*outputCnt` on entry, the capacity of `output`. -/
structure CallArgs where
  connection : Nat
  selector : Nat
  input : Option (List Nat)
  inputCnt : Nat
  inputStruct : Option (List Nat)
  inputStructCnt : Nat
  outputCnt : Nat
  outputStruct : Option (List Nat)
  outputStructCnt : Nat
  deriving DecidableEq, Repr

/-- External calls made or makeable on this interface, with their arguments.
`IOServiceClose` belongs to the IOKit interface (it closes a connection
obtained from `IOServiceOpen`); `readlmu` contains no call to it. -/
inductive Event where
  | IOServiceGetMatchingService (masterPort : Nat) (matching : MatchingDict)
  | IOServiceOpen (service : Nat) (owningTask : Nat) (type : Nat)
  | IOObjectRelease (object : Nat)
  | IOServiceClose (connect : Nat)
  | IOConnectCallMethod (args : CallArgs)
  | fprintf_stderr (format : String)
  | mach_error (str : String) (error_value : Int)
  | abort
  deriving DecidableEq, Repr

/-- One write on the standard error stream.  `mach_error str kr` is a libc
routine: it prints `str` followed by its rendering of the code `kr`. -/
inductive Diagnostic where
  | text (s : String)
  | machError (str : String) (kr : Int)
  deriving DecidableEq, Repr

/-- How an invocation ends: it hands a value to its caller, or the process is
terminated by `abort` and nothing is handed back. -/
inductive Outcome where
  | returned (value : Nat)
  | aborted
  deriving DecidableEq, Repr

/-- Result of the lookup stub: the service reference (0 is "no service"). -/
structure LookupResult (σ : Type) where
  service : Nat
  world : σ

/-- Result of the open stub: the return code and the content of `*connect`. -/
structure OpenResult (σ : Type) where
  kr : Int
  connect : Nat
  world : σ

/-- Result of the synchronous-call stub: the return code, the content of the
two-slot output array and the content of `*outputCnt` on exit. -/
structure CallResult (σ : Type) where
  kr : Int
  output : Fin 2 → Nat
  outputCnt : Nat
  world : σ

/-- The operating system seen by `readlmu`: the header constants and the
collaborator operations, each a function of the world state and of its C
arguments.  `IOServiceOpen` receives the initial content of `*connect`;
`IOConnectCallMethod` receives the content of the output array on entry.
Handles and return codes are tokens that `readlmu` only compares with 0 and
with `KERN_SUCCESS`, never computes with, so they are kept as `Nat` and `Int`. -/
structure Platform (σ : Type) where
  KERN_SUCCESS : Int
  kIOMasterPortDefault : Nat
  mach_task_self : Nat
  IOServiceGetMatchingService : σ → Nat → MatchingDict → LookupResult σ
  IOServiceOpen : σ → Nat → Nat → Nat → Nat → OpenResult σ
  IOObjectRelease : σ → Nat → σ
  IOConnectCallMethod : σ → CallArgs → (Fin 2 → Nat) → CallResult σ

/-- What an invocation leaves behind: its outcome, the external calls it made
in program order, and the final world state. -/
structure Run (σ : Type) where
  outcome : Outcome
  trace : List Event
  world : σ

/-! ## The function -/

/-- The function `readlmu` of lmu.c.  `w` is the world state on entry and
`stack` the indeterminate initial content of the local array `values`
(`uint64_t values[outputs]` with `outputs = 2`, not initialised).  The value
handed back is a `uint64_t`, hence the reduction modulo `2 ^ 64`. -/
def readlmu {σ : Type} (P : Platform σ) (w : σ) (stack : Fin 2 → Nat) : Run σ :=
  let matching := IOServiceMatching "AppleLMUController"
  let r := P.IOServiceGetMatchingService w P.kIOMasterPortDefault matching
  let service := r.service
  let t1 := [Event.IOServiceGetMatchingService P.kIOMasterPortDefault matching]
  if service = 0 then
    { outcome := Outcome.aborted
      trace := t1 ++ [Event.fprintf_stderr "failed to find ambient light sensors\n",
                      Event.abort]
      world := r.world }
  else
    let dataPort : Nat := 0
    let o := P.IOServiceOpen r.world service P.mach_task_self 0 dataPort
    let kr := o.kr
    let dataPort := o.connect
    let t2 := t1 ++ [Event.IOServiceOpen service P.mach_task_self 0]
    let w3 := P.IOObjectRelease o.world service
    let t3 := t2 ++ [Event.IOObjectRelease service]
    if kr ≠ P.KERN_SUCCESS then
      { outcome := Outcome.aborted
        trace := t3 ++ [Event.mach_error "IOServiceOpen:" kr, Event.abort]
        world := w3 }
    else
      let outputs : Nat := 2
      let values := stack
      let args : CallArgs :=
        { connection := dataPort, selector := 0, input := none, inputCnt := 0,
          inputStruct := none, inputStructCnt := 0, outputCnt := outputs,
          outputStruct := none, outputStructCnt := 0 }
      let c := P.IOConnectCallMethod w3 args values
      let kr := c.kr
      let values := c.output
      let t4 := t3 ++ [Event.IOConnectCallMethod args]
      if kr ≠ P.KERN_SUCCESS then
        { outcome := Outcome.aborted
          trace := t4 ++ [Event.fprintf_stderr "could not get sensor value", Event.abort]
          world := c.world }
      else
        { outcome := Outcome.returned (values 0 % 2 ^ 64)
          trace := t4
          world := c.world }

/-! ## Observations on a run -/

/-- The lookup as `readlmu` issues it. -/
def lookupStep {σ : Type} (P : Platform σ) (w : σ) : LookupResult σ :=
  P.IOServiceGetMatchingService w P.kIOMasterPortDefault
    (IOServiceMatching "AppleLMUController")

/-- The open as `readlmu` issues it after the lookup. -/
def openStep {σ : Type} (P : Platform σ) (w : σ) : OpenResult σ :=
  P.IOServiceOpen (lookupStep P w).world (lookupStep P w).service P.mach_task_self 0 0

/-- The argument record of the synchronous call as `readlmu` issues it. -/
def callArgs {σ : Type} (P : Platform σ) (w : σ) : CallArgs :=
  { connection := (openStep P w).connect, selector := 0, input := none, inputCnt := 0,
    inputStruct := none, inputStructCnt := 0, outputCnt := 2,
    outputStruct := none, outputStructCnt := 0 }

/-- The synchronous call as `readlmu` issues it after open and release. -/
def callStep {σ : Type} (P : Platform σ) (w : σ) (stack : Fin 2 → Nat) : CallResult σ :=
  P.IOConnectCallMethod
    (P.IOObjectRelease (openStep P w).world (lookupStep P w).service)
    (callArgs P w) stack

/-- What an event writes on standard error, if anything. -/
def diagnosticOf : Event → Option Diagnostic
  | Event.fprintf_stderr s => some (Diagnostic.text s)
  | Event.mach_error str kr => some (Diagnostic.machError str kr)
  | _ => none

/-- Content of standard error after a trace, in order of writing. -/
def stderrOf (trace : List Event) : List Diagnostic :=
  trace.filterMap diagnosticOf

/-- Is the event a service lookup. -/
def isLookup : Event → Bool
  | Event.IOServiceGetMatchingService _ _ => true
  | _ => false

/-- Is the event an open. -/
def isOpen : Event → Bool
  | Event.IOServiceOpen _ _ _ => true
  | _ => false

/-- Is the event a synchronous call. -/
def isCall : Event → Bool
  | Event.IOConnectCallMethod _ => true
  | _ => false

/-- Is the event a release of an object reference. -/
def isRelease : Event → Bool
  | Event.IOObjectRelease _ => true
  | _ => false

/-- Does the event give up the handle `h`: a close of the connection `h` or a
release of the object `h`. -/
def closes (h : Nat) : Event → Bool
  | Event.IOServiceClose c => decide (c = h)
  | Event.IOObjectRelease o => decide (o = h)
  | _ => false

/-- Has the handle `h` been closed or released somewhere in the trace. -/
def closedIn (h : Nat) (trace : List Event) : Bool :=
  trace.any (closes h)

/-- The three collaborator operations, as kinds. -/
inductive Kind where
  | lookup
  | openConn
  | call
  deriving DecidableEq, Repr

/-- Kind of an event, for the three collaborator operations. -/
def kindOf : Event → Option Kind
  | Event.IOServiceGetMatchingService _ _ => some Kind.lookup
  | Event.IOServiceOpen _ _ _ => some Kind.openConn
  | Event.IOConnectCallMethod _ => some Kind.call
  | _ => none

/-! ## A test platform -/

/-- Stub platform over a trivial world: the lookup yields `service`, the open
yields `(openKr, connect)`, the call yields `(callKr, out, cnt)`. -/
def stub (service : Nat) (openKr : Int) (connect : Nat) (callKr : Int)
    (out : Fin 2 → Nat) (cnt : Nat) : Platform Unit :=
  { KERN_SUCCESS := 0
    kIOMasterPortDefault := 0
    mach_task_self := 259
    IOServiceGetMatchingService := fun w _ _ => ⟨service, w⟩
    IOServiceOpen := fun w _ _ _ _ => ⟨openKr, connect, w⟩
    IOObjectRelease := fun w _ => w
    IOConnectCallMethod := fun w _ _ => ⟨callKr, out, cnt, w⟩ }

/-! ## The four paths of the function

The function has four paths.  Each lemma below gives the whole run on one of
them; the properties further down are read off these. -/

/-- The lookup event as `readlmu` issues it. -/
def lookupEvent {σ : Type} (P : Platform σ) : Event :=
  Event.IOServiceGetMatchingService P.kIOMasterPortDefault
    (IOServiceMatching "AppleLMUController")

/-- The open event as `readlmu` issues it. -/
def openEvent {σ : Type} (P : Platform σ) (w : σ) : Event :=
  Event.IOServiceOpen (lookupStep P w).service P.mach_task_self 0

/-- The release event as `readlmu` issues it. -/
def releaseEvent {σ : Type} (P : Platform σ) (w : σ) : Event :=
  Event.IOObjectRelease (lookupStep P w).service

/-- The synchronous-call event as `readlmu` issues it. -/
def callEvent {σ : Type} (P : Platform σ) (w : σ) : Event :=
  Event.IOConnectCallMethod (callArgs P w)

/-- Path 1: the lookup finds no service. -/
theorem run_notFound {σ : Type} (P : Platform σ) (w : σ) (stack : Fin 2 → Nat)
    (hs : (lookupStep P w).service = 0) :
    readlmu P w stack =
      { outcome := Outcome.aborted
        trace := [lookupEvent P,
                  Event.fprintf_stderr "failed to find ambient light sensors\n",
                  Event.abort]
        world := (lookupStep P w).world } := by
  unfold lookupStep at hs
  simp [readlmu, lookupStep, lookupEvent, hs]

/-- Path 2: the service is found and the open fails. -/
theorem run_openFailed {σ : Type} (P : Platform σ) (w : σ) (stack : Fin 2 → Nat)
    (hs : (lookupStep P w).service ≠ 0) (ho : (openStep P w).kr ≠ P.KERN_SUCCESS) :
    readlmu P w stack =
      { outcome := Outcome.aborted
        trace := [lookupEvent P, openEvent P w, releaseEvent P w,
                  Event.mach_error "IOServiceOpen:" (openStep P w).kr, Event.abort]
        world := P.IOObjectRelease (openStep P w).world (lookupStep P w).service } := by
  unfold openStep lookupStep at ho
  unfold lookupStep at hs
  simp [readlmu, openStep, lookupStep, lookupEvent, openEvent, releaseEvent, hs, ho]

/-- Path 3: service found and opened, the synchronous call fails. -/
theorem run_callFailed {σ : Type} (P : Platform σ) (w : σ) (stack : Fin 2 → Nat)
    (hs : (lookupStep P w).service ≠ 0) (ho : (openStep P w).kr = P.KERN_SUCCESS)
    (hc : (callStep P w stack).kr ≠ P.KERN_SUCCESS) :
    readlmu P w stack =
      { outcome := Outcome.aborted
        trace := [lookupEvent P, openEvent P w, releaseEvent P w, callEvent P w,
                  Event.fprintf_stderr "could not get sensor value", Event.abort]
        world := (callStep P w stack).world } := by
  unfold callStep callArgs openStep lookupStep at hc
  unfold openStep lookupStep at ho
  unfold lookupStep at hs
  simp [readlmu, callStep, callArgs, openStep, lookupStep, lookupEvent, openEvent,
    releaseEvent, callEvent, hs, ho, hc]

/-- Path 4: lookup, open and call all succeed. -/
theorem run_success {σ : Type} (P : Platform σ) (w : σ) (stack : Fin 2 → Nat)
    (hs : (lookupStep P w).service ≠ 0) (ho : (openStep P w).kr = P.KERN_SUCCESS)
    (hc : (callStep P w stack).kr = P.KERN_SUCCESS) :
    readlmu P w stack =
      { outcome := Outcome.returned ((callStep P w stack).output 0 % 2 ^ 64)
        trace := [lookupEvent P, openEvent P w, releaseEvent P w, callEvent P w]
        world := (callStep P w stack).world } := by
  unfold callStep callArgs openStep lookupStep at hc
  unfold openStep lookupStep at ho
  unfold lookupStep at hs
  simp [readlmu, callStep, callArgs, openStep, lookupStep, lookupEvent, openEvent,
    releaseEvent, callEvent, hs, ho, hc]

/-! ## Return value -/

/-- C1: when the lookup yields a non-zero service, the open reports
`KERN_SUCCESS` and the call reports `KERN_SUCCESS` leaving `[v0, v1]` in the
output array, with `v0` a 64-bit value, `readlmu` returns exactly `v0`,
whatever `v1` is. -/
theorem readlmu_returns_first_output {σ : Type} (P : Platform σ) (w : σ)
    (stack : Fin 2 → Nat) (v0 v1 : Nat) (h0 : v0 < 2 ^ 64)
    (hs : (lookupStep P w).service ≠ 0)
    (ho : (openStep P w).kr = P.KERN_SUCCESS)
    (hc : (callStep P w stack).kr = P.KERN_SUCCESS)
    (hv : (callStep P w stack).output = ![v0, v1]) :
    (readlmu P w stack).outcome = Outcome.returned v0 := by
  rw [run_success P w stack hs ho hc, hv]
  simpa using Nat.mod_eq_of_lt h0

/-- The fixture of the specification: outputs `[4242, 0]` give `4242`. -/
theorem readlmu_returns_first_output_witness :
    (readlmu (stub 7 0 9 0 ![4242, 0] 2) () ![11, 12]).outcome = Outcome.returned 4242 :=
  readlmu_returns_first_output (stub 7 0 9 0 ![4242, 0] 2) () ![11, 12] 4242 0
    (by decide) (by decide) (by decide) (by decide) rfl

/-! ## Failure handling -/

/-- C2: `readlmu` returns a value with nothing on standard error exactly when
the lookup found a service, the open reported `KERN_SUCCESS` and the call
reported `KERN_SUCCESS`; in every other case the outcome is termination of the
process, no value is returned, and the run ends with the one `abort` call,
whichever of the three failures occurred. -/
theorem readlmu_returns_iff_all_succeed {σ : Type} (P : Platform σ) (w : σ)
    (stack : Fin 2 → Nat) :
    (((∃ v, (readlmu P w stack).outcome = Outcome.returned v) ∧
        stderrOf (readlmu P w stack).trace = []) ↔
      ((lookupStep P w).service ≠ 0 ∧ (openStep P w).kr = P.KERN_SUCCESS ∧
        (callStep P w stack).kr = P.KERN_SUCCESS)) ∧
    (¬ ((lookupStep P w).service ≠ 0 ∧ (openStep P w).kr = P.KERN_SUCCESS ∧
        (callStep P w stack).kr = P.KERN_SUCCESS) →
      (readlmu P w stack).outcome = Outcome.aborted ∧
      (∀ v, (readlmu P w stack).outcome ≠ Outcome.returned v) ∧
      (readlmu P w stack).trace.getLast? = some Event.abort ∧
      (readlmu P w stack).trace.count Event.abort = 1) := by
  by_cases hs : (lookupStep P w).service = 0
  · rw [run_notFound P w stack hs]
    simp [hs, lookupEvent]
  · by_cases ho : (openStep P w).kr = P.KERN_SUCCESS
    · by_cases hc : (callStep P w stack).kr = P.KERN_SUCCESS
      · rw [run_success P w stack hs ho hc]
        simp [hs, ho, hc, stderrOf, diagnosticOf, lookupEvent, openEvent, releaseEvent,
          callEvent]
      · rw [run_callFailed P w stack hs ho hc]
        simp [hs, ho, hc, lookupEvent, openEvent, releaseEvent, callEvent]
    · rw [run_openFailed P w stack hs ho]
      simp [hs, ho, lookupEvent, openEvent, releaseEvent]

/-- C3: when the lookup yields no service, `readlmu` writes exactly
"failed to find ambient light sensors\n" on standard error and terminates the
process there: the run is lookup, diagnostic, abort, with no open, no
synchronous call and no value returned. -/
theorem readlmu_service_not_found {σ : Type} (P : Platform σ) (w : σ)
    (stack : Fin 2 → Nat) (hs : (lookupStep P w).service = 0) :
    stderrOf (readlmu P w stack).trace =
        [Diagnostic.text "failed to find ambient light sensors\n"] ∧
    (readlmu P w stack).outcome = Outcome.aborted ∧
    (readlmu P w stack).trace =
        [lookupEvent P, Event.fprintf_stderr "failed to find ambient light sensors\n",
         Event.abort] ∧
    (∀ e ∈ (readlmu P w stack).trace, isOpen e = false ∧ isCall e = false) := by
  rw [run_notFound P w stack hs]
  simp [stderrOf, diagnosticOf, lookupEvent, isOpen, isCall]

/-- Absent service on the stub platform. -/
theorem readlmu_service_not_found_witness :
    stderrOf (readlmu (stub 0 0 9 0 ![4242, 0] 2) () ![11, 12]).trace =
        [Diagnostic.text "failed to find ambient light sensors\n"] ∧
    (readlmu (stub 0 0 9 0 ![4242, 0] 2) () ![11, 12]).outcome = Outcome.aborted :=
  have h := readlmu_service_not_found (stub 0 0 9 0 ![4242, 0] 2) () ![11, 12] (by decide)
  ⟨h.1, h.2.1⟩

/-- C4: when the service is found and the open returns a code `kr` other than
`KERN_SUCCESS`, the only write on standard error is `mach_error` with the
string "IOServiceOpen:" and that same code `kr`; the process is then
terminated, no synchronous call is issued and no value is returned. -/
theorem readlmu_open_failed {σ : Type} (P : Platform σ) (w : σ)
    (stack : Fin 2 → Nat) (hs : (lookupStep P w).service ≠ 0)
    (ho : (openStep P w).kr ≠ P.KERN_SUCCESS) :
    stderrOf (readlmu P w stack).trace =
        [Diagnostic.machError "IOServiceOpen:" (openStep P w).kr] ∧
    (readlmu P w stack).outcome = Outcome.aborted ∧
    (readlmu P w stack).trace.getLast? = some Event.abort ∧
    (∀ e ∈ (readlmu P w stack).trace, isCall e = false) := by
  rw [run_openFailed P w stack hs ho]
  simp [stderrOf, diagnosticOf, lookupEvent, openEvent, releaseEvent, isCall]

/-- Open refused with code 5 on the stub platform. -/
theorem readlmu_open_failed_witness :
    stderrOf (readlmu (stub 7 5 9 0 ![4242, 0] 2) () ![11, 12]).trace =
        [Diagnostic.machError "IOServiceOpen:" 5] ∧
    (readlmu (stub 7 5 9 0 ![4242, 0] 2) () ![11, 12]).outcome = Outcome.aborted :=
  have h := readlmu_open_failed (stub 7 5 9 0 ![4242, 0] 2) () ![11, 12]
    (by decide) (by decide)
  ⟨h.1, h.2.1⟩

/-- C5: when the service is found and opened and the call returns a code other
than `KERN_SUCCESS`, the only write on standard error is
"could not get sensor value"; the process is then terminated and no value is
returned, whatever the call left in the output array. -/
theorem readlmu_call_failed {σ : Type} (P : Platform σ) (w : σ)
    (stack : Fin 2 → Nat) (hs : (lookupStep P w).service ≠ 0)
    (ho : (openStep P w).kr = P.KERN_SUCCESS)
    (hc : (callStep P w stack).kr ≠ P.KERN_SUCCESS) :
    stderrOf (readlmu P w stack).trace =
        [Diagnostic.text "could not get sensor value"] ∧
    (readlmu P w stack).outcome = Outcome.aborted ∧
    (∀ v, (readlmu P w stack).outcome ≠ Outcome.returned v) ∧
    (readlmu P w stack).trace.getLast? = some Event.abort := by
  rw [run_callFailed P w stack hs ho hc]
  simp [stderrOf, diagnosticOf, lookupEvent, openEvent, releaseEvent, callEvent]

/-- Failed call that nevertheless filled the output array, on the stub
platform. -/
theorem readlmu_call_failed_witness :
    stderrOf (readlmu (stub 7 0 9 (-3) ![4242, 0] 2) () ![11, 12]).trace =
        [Diagnostic.text "could not get sensor value"] ∧
    (readlmu (stub 7 0 9 (-3) ![4242, 0] 2) () ![11, 12]).outcome = Outcome.aborted :=
  have h := readlmu_call_failed (stub 7 0 9 (-3) ![4242, 0] 2) () ![11, 12]
    (by decide) (by decide) (by decide)
  ⟨h.1, h.2.1⟩

/-! ## Handles -/

/-- C6, as stated, fails: on the stub platform with service 7 and connection 9
the function returns 4242 and its trace holds no close or release of the
connection handle 9. -/
theorem readlmu_connection_not_closed_example :
    (readlmu (stub 7 0 9 0 ![4242, 0] 2) () ![11, 12]).outcome = Outcome.returned 4242 ∧
    closedIn 9 (readlmu (stub 7 0 9 0 ![4242, 0] 2) () ![11, 12]).trace = false := by
  decide

/-- C6, amended: on every path on which `readlmu` returns, the service
reference has been released before the return, no `IOServiceClose` has been
issued and the only object released is the service reference.  The connection
handle produced by the open has therefore not been closed when the function
returns whenever it is a handle distinct from the service reference; it counts
as released exactly in the degenerate case where the open handed back the same
handle value as the service reference. -/
theorem readlmu_return_leaves_connection_open {σ : Type} (P : Platform σ) (w : σ)
    (stack : Fin 2 → Nat) (v : Nat)
    (hr : (readlmu P w stack).outcome = Outcome.returned v) :
    closedIn (lookupStep P w).service (readlmu P w stack).trace = true ∧
    (∀ c, Event.IOServiceClose c ∉ (readlmu P w stack).trace) ∧
    (∀ o, Event.IOObjectRelease o ∈ (readlmu P w stack).trace →
      o = (lookupStep P w).service) ∧
    (closedIn (openStep P w).connect (readlmu P w stack).trace = true ↔
      (openStep P w).connect = (lookupStep P w).service) ∧
    ((openStep P w).connect ≠ (lookupStep P w).service →
      closedIn (openStep P w).connect (readlmu P w stack).trace = false) := by
  by_cases hs : (lookupStep P w).service = 0
  · rw [run_notFound P w stack hs] at hr
    cases hr
  · by_cases ho : (openStep P w).kr = P.KERN_SUCCESS
    · by_cases hc : (callStep P w stack).kr = P.KERN_SUCCESS
      · rw [run_success P w stack hs ho hc]
        simp only [closedIn, lookupEvent, openEvent, releaseEvent, callEvent]
        refine ⟨by simp [closes], by simp, by simp, ?_, ?_⟩
        · simp [closes, eq_comm]
        · intro hne
          have hne2 : ¬ (lookupStep P w).service = (openStep P w).connect :=
            fun h => hne h.symm
          simp [closes, hne2]
      · rw [run_callFailed P w stack hs ho hc] at hr
        cases hr
    · rw [run_openFailed P w stack hs ho] at hr
      cases hr

/-- Returning runs on the stub platform.  With service 7 and connection 9 the
service is released and the connection is not closed; with the open handing
back the handle 7 of the service itself, the release of the service is the
only thing that touches handle 7 and no `IOServiceClose` occurs. -/
theorem readlmu_return_leaves_connection_open_witness :
    closedIn 7 (readlmu (stub 7 0 9 0 ![4242, 0] 2) () ![11, 12]).trace = true ∧
    closedIn 9 (readlmu (stub 7 0 9 0 ![4242, 0] 2) () ![11, 12]).trace = false ∧
    (closedIn 7 (readlmu (stub 7 0 7 0 ![4242, 0] 2) () ![11, 12]).trace = true ↔
      (7 : Nat) = 7) ∧
    (∀ c, Event.IOServiceClose c ∉ (readlmu (stub 7 0 7 0 ![4242, 0] 2) () ![11, 12]).trace) :=
  have h := readlmu_return_leaves_connection_open (stub 7 0 9 0 ![4242, 0] 2) ()
    ![11, 12] 4242 (by decide)
  have g := readlmu_return_leaves_connection_open (stub 7 0 7 0 ![4242, 0] 2) ()
    ![11, 12] 4242 (by decide)
  ⟨h.1, h.2.2.2.2 (by decide), g.2.2.2.1, g.2.1⟩

/-- C7: whenever the lookup finds a service, the trace starts with lookup,
open, release of the service reference, for every result code of the open;
that release is the only release of the run, so the service reference is
released exactly once, and every diagnostic, `abort` or synchronous call of
the run comes after it. -/
theorem readlmu_releases_service_after_open {σ : Type} (P : Platform σ) (w : σ)
    (stack : Fin 2 → Nat) (hs : (lookupStep P w).service ≠ 0) :
    ∃ rest : List Event,
      (readlmu P w stack).trace =
        [lookupEvent P, openEvent P w,
         Event.IOObjectRelease (lookupStep P w).service] ++ rest ∧
      (∀ e ∈ rest, isRelease e = false) ∧
      (readlmu P w stack).trace.count (Event.IOObjectRelease (lookupStep P w).service) = 1 ∧
      (∀ e ∈ (readlmu P w stack).trace,
        ((diagnosticOf e).isSome = true ∨ e = Event.abort ∨ isCall e = true) → e ∈ rest) := by
  by_cases ho : (openStep P w).kr = P.KERN_SUCCESS
  · by_cases hc : (callStep P w stack).kr = P.KERN_SUCCESS
    · rw [run_success P w stack hs ho hc]
      refine ⟨[callEvent P w], ?_, ?_, ?_, ?_⟩ <;>
        simp [isRelease, diagnosticOf, isCall, lookupEvent, openEvent, releaseEvent,
          callEvent]
    · rw [run_callFailed P w stack hs ho hc]
      refine ⟨[callEvent P w, Event.fprintf_stderr "could not get sensor value",
        Event.abort], ?_, ?_, ?_, ?_⟩ <;>
        simp [isRelease, diagnosticOf, isCall, lookupEvent, openEvent, releaseEvent,
          callEvent]
  · rw [run_openFailed P w stack hs ho]
    refine ⟨[Event.mach_error "IOServiceOpen:" (openStep P w).kr, Event.abort],
      ?_, ?_, ?_, ?_⟩ <;>
      simp [isRelease, diagnosticOf, isCall, lookupEvent, openEvent, releaseEvent]

/-- Failed open on the stub platform: the service reference 7 is released
once all the same. -/
theorem readlmu_releases_service_after_open_witness :
    (readlmu (stub 7 5 9 0 ![4242, 0] 2) () ![11, 12]).trace.count
      (Event.IOObjectRelease 7) = 1 :=
  (readlmu_releases_service_after_open (stub 7 5 9 0 ![4242, 0] 2) () ![11, 12]
    (by decide)).elim fun _ h => h.2.2.1

/-! ## Shape of a run -/

/-- C8: the collaborator operations of a run, in order, form an initial
segment of lookup, open, call, so each happens at most once, in that order and
with no retry; on the path that returns a value the trace is exactly lookup,
open, release of the service reference, call. -/
theorem readlmu_trace_linear {σ : Type} (P : Platform σ) (w : σ)
    (stack : Fin 2 → Nat) :
    (readlmu P w stack).trace.filterMap kindOf <+: [Kind.lookup, Kind.openConn, Kind.call] ∧
    ((readlmu P w stack).trace.filter isLookup).length ≤ 1 ∧
    ((readlmu P w stack).trace.filter isOpen).length ≤ 1 ∧
    ((readlmu P w stack).trace.filter isCall).length ≤ 1 ∧
    (∀ v, (readlmu P w stack).outcome = Outcome.returned v →
      (readlmu P w stack).trace =
        [Event.IOServiceGetMatchingService P.kIOMasterPortDefault
           (IOServiceMatching "AppleLMUController"),
         Event.IOServiceOpen (lookupStep P w).service P.mach_task_self 0,
         Event.IOObjectRelease (lookupStep P w).service,
         Event.IOConnectCallMethod (callArgs P w)]) := by
  by_cases hs : (lookupStep P w).service = 0
  · rw [run_notFound P w stack hs]
    refine ⟨⟨[Kind.openConn, Kind.call], ?_⟩, ?_, ?_, ?_, ?_⟩ <;>
      simp [kindOf, isLookup, isOpen, isCall, lookupEvent]
  · by_cases ho : (openStep P w).kr = P.KERN_SUCCESS
    · by_cases hc : (callStep P w stack).kr = P.KERN_SUCCESS
      · rw [run_success P w stack hs ho hc]
        refine ⟨⟨[], ?_⟩, ?_, ?_, ?_, ?_⟩ <;>
          simp [kindOf, isLookup, isOpen, isCall, lookupEvent, openEvent, releaseEvent,
            callEvent]
      · rw [run_callFailed P w stack hs ho hc]
        refine ⟨⟨[], ?_⟩, ?_, ?_, ?_, ?_⟩ <;>
          simp [kindOf, isLookup, isOpen, isCall, lookupEvent, openEvent, releaseEvent,
            callEvent]
    · rw [run_openFailed P w stack hs ho]
      refine ⟨⟨[Kind.call], ?_⟩, ?_, ?_, ?_, ?_⟩ <;>
        simp [kindOf, isLookup, isOpen, isCall, lookupEvent, openEvent, releaseEvent]

/-- C9: every synchronous call of a run is made on the connection produced by
the open, with request code 0, no scalar input (count 0), no structured input
(size 0), an output capacity of 2 and no structured output (size 0); every
lookup of a run, and the run starts with one, names "AppleLMUController";
and the call is indeed issued once lookup and open have succeeded. -/
theorem readlmu_call_arguments {σ : Type} (P : Platform σ) (w : σ)
    (stack : Fin 2 → Nat) :
    (∀ a, Event.IOConnectCallMethod a ∈ (readlmu P w stack).trace →
      a.connection = (openStep P w).connect ∧ a.selector = 0 ∧
      a.input = none ∧ a.inputCnt = 0 ∧
      a.inputStruct = none ∧ a.inputStructCnt = 0 ∧
      a.outputCnt = 2 ∧
      a.outputStruct = none ∧ a.outputStructCnt = 0) ∧
    (∀ m d, Event.IOServiceGetMatchingService m d ∈ (readlmu P w stack).trace →
      m = P.kIOMasterPortDefault ∧ d.IOProviderClass = "AppleLMUController") ∧
    (readlmu P w stack).trace.head? =
      some (Event.IOServiceGetMatchingService P.kIOMasterPortDefault
        ⟨"AppleLMUController"⟩) ∧
    ((lookupStep P w).service ≠ 0 → (openStep P w).kr = P.KERN_SUCCESS →
      Event.IOConnectCallMethod (callArgs P w) ∈ (readlmu P w stack).trace) := by
  by_cases hs : (lookupStep P w).service = 0
  · rw [run_notFound P w stack hs]
    simp [lookupEvent, IOServiceMatching, hs]
  · by_cases ho : (openStep P w).kr = P.KERN_SUCCESS
    · by_cases hc : (callStep P w stack).kr = P.KERN_SUCCESS
      · rw [run_success P w stack hs ho hc]
        simp [lookupEvent, openEvent, releaseEvent, callEvent, callArgs, IOServiceMatching]
      · rw [run_callFailed P w stack hs ho hc]
        simp [lookupEvent, openEvent, releaseEvent, callEvent, callArgs, IOServiceMatching]
    · rw [run_openFailed P w stack hs ho]
      simp [lookupEvent, openEvent, releaseEvent, IOServiceMatching, ho]

/-! ## The reported output count -/

/-- C10: the count written back by the call plays no part.  Two runs in which
lookup, open and call all succeed and the call leaves the same value in slot 0
of the output array return the same value, the content of slot 0 as a 64-bit
value, whatever counts the two calls reported and whatever the rest of the
array holds. -/
theorem readlmu_ignores_output_count {σ : Type} (P Q : Platform σ) (w w' : σ)
    (stack stack' : Fin 2 → Nat)
    (hsP : (lookupStep P w).service ≠ 0) (hoP : (openStep P w).kr = P.KERN_SUCCESS)
    (hcP : (callStep P w stack).kr = P.KERN_SUCCESS)
    (hsQ : (lookupStep Q w').service ≠ 0) (hoQ : (openStep Q w').kr = Q.KERN_SUCCESS)
    (hcQ : (callStep Q w' stack').kr = Q.KERN_SUCCESS)
    (h0 : (callStep P w stack).output 0 = (callStep Q w' stack').output 0) :
    (readlmu P w stack).outcome = (readlmu Q w' stack').outcome ∧
    (readlmu P w stack).outcome =
      Outcome.returned ((callStep P w stack).output 0 % 2 ^ 64) := by
  rw [run_success P w stack hsP hoP hcP, run_success Q w' stack' hsQ hoQ hcQ, h0]
  exact ⟨rfl, rfl⟩

/-- A call reporting 2 outputs and a call reporting 0 outputs, both leaving
4242 in slot 0, on the stub platform: the count differs, the result is the
same value 4242, not a failure. -/
theorem readlmu_ignores_output_count_witness :
    (callStep (stub 7 0 9 0 ![4242, 0] 2) () ![11, 12]).outputCnt = 2 ∧
    (callStep (stub 7 0 9 0 ![4242, 5] 0) () ![11, 12]).outputCnt = 0 ∧
    (readlmu (stub 7 0 9 0 ![4242, 0] 2) () ![11, 12]).outcome =
      (readlmu (stub 7 0 9 0 ![4242, 5] 0) () ![11, 12]).outcome ∧
    (readlmu (stub 7 0 9 0 ![4242, 5] 0) () ![11, 12]).outcome = Outcome.returned 4242 :=
  have h := readlmu_ignores_output_count (stub 7 0 9 0 ![4242, 0] 2)
    (stub 7 0 9 0 ![4242, 5] 0) () () ![11, 12] ![11, 12]
    (by decide) (by decide) (by decide) (by decide) (by decide) (by decide) rfl
  ⟨rfl, rfl, h.1, by decide⟩

end Lmu
